import Mathlib

/-!
Shallow embedding of the `ansi-escapes` Rust crate (`src/lib.rs`) and proofs
about its rendering functions.

Modelling conventions:

* A `u16` value is a `Nat` (the source guarantees `< 2 ^ 16` at the type level;
  theorems carry the bound as a hypothesis where the claim quantifies over the
  16-bit range).  An `i16` value is an `Int` in `[-32768, 32767]`.
* Rust's `Display` for unsigned integers prints the plain decimal digits with
  no sign, padding or leading zeros; `uDec` below implements exactly that
  (digit-by-digit, least significant first, like the formatting loop in Rust's
  core library).  `iDec` is `Display` for signed integers.
* Arithmetic on `u16`/`i16` overflows at the boundaries of the type.  In
  release builds Rust wraps (two's complement); in debug builds it panics.
  The primary rendering functions (`fmt`, `fmtTo`) use the wrapping (release)
  semantics, made explicit with `% 65536` / `wrap16`.  The `...Checked`
  variants model the debug semantics: they return `none` exactly where the
  source's arithmetic overflows and `some` of the rendered string otherwise.
* A `fmt::Formatter` sink is modelled as the `String` accumulated so far:
  each `write!` appends.  `fmtTo c buf` is the state-passing form taken
  straight from the source; `render c` is `fmtTo c ""`.
-/

namespace AnsiEscapes

/-- Decimal digit to its ASCII character, `0 ↦ '0'`, …, `9 ↦ '9'`. -/
def digitChar (d : Nat) : Char := Char.ofNat (48 + d)

/-- Fuel-driven decimal printer: prepends the digits of `n` (most significant
first) to `acc`, emitting the least significant digit first, exactly like the
formatting loop used for `Display` of unsigned integers. -/
def uDecCore : Nat → Nat → List Char → List Char
  | 0, _, acc => acc
  | fuel + 1, n, acc =>
    if n < 10 then digitChar n :: acc
    else uDecCore fuel (n / 10) (digitChar (n % 10) :: acc)

/-- Rust `Display` for an unsigned integer: plain decimal digits, no sign, no
padding, no leading zeros (`0` prints as `"0"`). -/
def uDec (n : Nat) : String := ⟨uDecCore (n + 1) n []⟩

/-- Rust `Display` for a signed integer. -/
def iDec (i : Int) : String :=
  if i < 0 then "-" ++ uDec i.natAbs else uDec i.toNat

/-- Two's-complement wrap of an integer into the `i16` range
`[-32768, 32767]` (release-build overflow semantics). -/
def wrap16 (z : Int) : Int := (z + 32768) % 65536 - 32768

/-- Checked `i16` negation: `none` when negating `-32768` (overflow, a panic
in debug builds), otherwise the negation. -/
def negChecked (z : Int) : Option Int :=
  if z = -32768 then none else some (-z)

/-- Checked `u16` increment: `none` when incrementing `65535` (overflow, a
panic in debug builds), otherwise the successor. -/
def succChecked (n : Nat) : Option Nat :=
  if n + 1 < 65536 then some (n + 1) else none

/-! ### `CursorTo` (absolute positioning) -/

/-- Mirrors `pub enum CursorTo { TopLeft, AbsoluteX(u16), AbsoluteXY(u16, u16) }`. -/
inductive CursorTo : Type
  | TopLeft : CursorTo
  | AbsoluteX (x : Nat) : CursorTo
  | AbsoluteXY (x y : Nat) : CursorTo

/-- Source `impl fmt::Display for CursorTo`, sink-passing form; the `+ 1` on a
`u16` is wrapping in release builds, hence the `% 65536`. -/
def CursorTo.fmtTo : CursorTo → String → String
  | .TopLeft, buf => buf ++ ("\x1B[" ++ uDec 1 ++ ";" ++ uDec 1 ++ "H")
  | .AbsoluteX x, buf => buf ++ ("\x1B[" ++ uDec ((x + 1) % 65536) ++ "G")
  | .AbsoluteXY x y, buf =>
      buf ++ ("\x1B[" ++ uDec ((y + 1) % 65536) ++ ";" ++ uDec ((x + 1) % 65536) ++ "H")

/-- Rendering into an empty sink. -/
def CursorTo.fmt (c : CursorTo) : String := c.fmtTo ""

/-- Debug-build semantics of `CursorTo`'s `Display`: `none` where `x + 1`
overflows the `u16` (a panic). -/
def CursorTo.fmtChecked : CursorTo → Option String
  | .TopLeft => some ("\x1B[" ++ uDec 1 ++ ";" ++ uDec 1 ++ "H")
  | .AbsoluteX x => do
      let x1 ← succChecked x
      pure ("\x1B[" ++ uDec x1 ++ "G")
  | .AbsoluteXY x y => do
      let x1 ← succChecked x
      let y1 ← succChecked y
      pure ("\x1B[" ++ uDec y1 ++ ";" ++ uDec x1 ++ "H")

/-! ### `CursorMove` (relative positioning) -/

/-- Mirrors `pub enum CursorMove { X(i16), XY(i16, i16), Y(i16) }`. -/
inductive CursorMove : Type
  | X (x : Int) : CursorMove
  | XY (x y : Int) : CursorMove
  | Y (y : Int) : CursorMove

/-- The `CursorMove::X` arm of the source `fmt`: `ESC[{x}C` when positive,
`ESC[{-x}D` when negative (the negation wraps in release builds), nothing when
zero. -/
def fmtX (x : Int) : String :=
  if 0 < x then "\x1B[" ++ iDec x ++ "C"
  else if x < 0 then "\x1B[" ++ iDec (wrap16 (-x)) ++ "D"
  else ""

/-- The `CursorMove::Y` arm of the source `fmt`. -/
def fmtY (y : Int) : String :=
  if 0 < y then "\x1B[" ++ iDec y ++ "B"
  else if y < 0 then "\x1B[" ++ iDec (wrap16 (-y)) ++ "A"
  else ""

/-- Source `impl fmt::Display for CursorMove`, sink-passing form: the `XY`
branch formats `X(x)` and then `Y(y)` into the same sink. -/
def CursorMove.fmtTo : CursorMove → String → String
  | .X x, buf => buf ++ fmtX x
  | .XY x y, buf => (buf ++ fmtX x) ++ fmtY y
  | .Y y, buf => buf ++ fmtY y

/-- Rendering into an empty sink. -/
def CursorMove.fmt (c : CursorMove) : String := c.fmtTo ""

/-- Debug-build semantics of the `X` arm: negating `-32768` panics. -/
def fmtXChecked (x : Int) : Option String :=
  if 0 < x then some ("\x1B[" ++ iDec x ++ "C")
  else if x < 0 then do
    let p ← negChecked x
    pure ("\x1B[" ++ iDec p ++ "D")
  else some ""

/-- Debug-build semantics of the `Y` arm. -/
def fmtYChecked (y : Int) : Option String :=
  if 0 < y then some ("\x1B[" ++ iDec y ++ "B")
  else if y < 0 then do
    let p ← negChecked y
    pure ("\x1B[" ++ iDec p ++ "A")
  else some ""

/-- Debug-build semantics of `CursorMove`'s `Display`. -/
def CursorMove.fmtChecked : CursorMove → Option String
  | .X x => fmtXChecked x
  | .XY x y => do
      let sx ← fmtXChecked x
      let sy ← fmtYChecked y
      pure (sx ++ sy)
  | .Y y => fmtYChecked y

/-! ### Directional movers `CursorUp` / `CursorDown` / `CursorForward` / `CursorBackward` -/

/-- Mirrors `pub struct CursorUp(pub u16)`. -/
structure CursorUp : Type where
  n : Nat

/-- Source `Display` for `CursorUp`: `write!(f, "\x1B[{}A", self.0)`. -/
def CursorUp.fmtTo (c : CursorUp) (buf : String) : String :=
  buf ++ ("\x1B[" ++ uDec c.n ++ "A")

/-- Rendering into an empty sink. -/
def CursorUp.fmt (c : CursorUp) : String := c.fmtTo ""

/-- Mirrors `pub struct CursorDown(pub u16)`. -/
structure CursorDown : Type where
  n : Nat

/-- Source `Display` for `CursorDown`: `write!(f, "\x1B[{}B", self.0)`. -/
def CursorDown.fmtTo (c : CursorDown) (buf : String) : String :=
  buf ++ ("\x1B[" ++ uDec c.n ++ "B")

/-- Rendering into an empty sink. -/
def CursorDown.fmt (c : CursorDown) : String := c.fmtTo ""

/-- Mirrors `pub struct CursorForward(pub u16)`. -/
structure CursorForward : Type where
  n : Nat

/-- Source `Display` for `CursorForward`: `write!(f, "\x1B[{}C", self.0)`. -/
def CursorForward.fmtTo (c : CursorForward) (buf : String) : String :=
  buf ++ ("\x1B[" ++ uDec c.n ++ "C")

/-- Rendering into an empty sink. -/
def CursorForward.fmt (c : CursorForward) : String := c.fmtTo ""

/-- Mirrors `pub struct CursorBackward(pub u16)`. -/
structure CursorBackward : Type where
  n : Nat

/-- Source `Display` for `CursorBackward`: `write!(f, "\x1B[{}D", self.0)`. -/
def CursorBackward.fmtTo (c : CursorBackward) (buf : String) : String :=
  buf ++ ("\x1B[" ++ uDec c.n ++ "D")

/-- Rendering into an empty sink. -/
def CursorBackward.fmt (c : CursorBackward) : String := c.fmtTo ""

/-! ### Fixed (parameterless) escape codes

Each is declared in the source through the `escape_code!` expansion: a marker
struct whose `Display` writes one constant string.  Here each becomes the
constant string itself; writing it to a sink is `buf ++ constant`. -/

/-- Constant written by `CursorLeft`'s `Display` (`"\x1B[1000D"`). -/
def CursorLeft : String := "\x1B[1000D"

/-- Constant written by `CursorSavePosition`'s `Display` (`"\x1B[s"`). -/
def CursorSavePosition : String := "\x1B[s"

/-- Constant written by `CursorRestorePosition`'s `Display` (`"\x1B[u"`). -/
def CursorRestorePosition : String := "\x1B[u"

/-- Constant written by `CursorGetPosition`'s `Display` (`"\x1B[6n"`). -/
def CursorGetPosition : String := "\x1B[6n"

/-- Constant written by `CursorNextLine`'s `Display` (`"\x1B[E"`). -/
def CursorNextLine : String := "\x1B[E"

/-- Constant written by `CursorPrevLine`'s `Display` (`"\x1B[F"`). -/
def CursorPrevLine : String := "\x1B[F"

/-- Constant written by `CursorHide`'s `Display` (`"\x1B[?25l"`). -/
def CursorHide : String := "\x1B[?25l"

/-- Constant written by `CursorShow`'s `Display` (`"\x1B[?25h"`). -/
def CursorShow : String := "\x1B[?25h"

/-- Constant written by `EraseEndLine`'s `Display` (`"\x1B[K"`). -/
def EraseEndLine : String := "\x1B[K"

/-- Constant written by `EraseStartLine`'s `Display` (`"\x1B[1K"`). -/
def EraseStartLine : String := "\x1B[1K"

/-- Constant written by `EraseLine`'s `Display` (`"\x1B[2K"`). -/
def EraseLine : String := "\x1B[2K"

/-- Constant written by `EraseDown`'s `Display` (`"\x1B[J"`). -/
def EraseDown : String := "\x1B[J"

/-- Constant written by `EraseUp`'s `Display` (`"\x1B[1J"`). -/
def EraseUp : String := "\x1B[1J"

/-- Constant written by `EraseScreen`'s `Display` (`"\x1B[2J"`). -/
def EraseScreen : String := "\x1B[2J"

/-- Constant written by `ScrollUp`'s `Display` (`"\x1B[S"`). -/
def ScrollUp : String := "\x1B[S"

/-- Constant written by `ScrollDown`'s `Display` (`"\x1B[T"`). -/
def ScrollDown : String := "\x1B[T"

/-- Constant written by `ClearScreen`'s `Display` (`"\u{001b}c"`). -/
def ClearScreen : String := "\x1Bc"

/-- Constant written by `EnterAlternativeScreen`'s `Display` (`"\x1B[?1049h"`). -/
def EnterAlternativeScreen : String := "\x1B[?1049h"

/-- Constant written by `ExitAlternativeScreen`'s `Display` (`"\x1B[?1049l"`). -/
def ExitAlternativeScreen : String := "\x1B[?1049l"

/-- Constant written by `Beep`'s `Display` (`"\u{0007}"`). -/
def Beep : String := "\x07"

/-! ### `EraseLines` -/

/-- Mirrors `pub struct EraseLines(pub u16)`. -/
structure EraseLines : Type where
  n : Nat

/-- Source `Display` for `EraseLines`: the loop
`for idx in 0..self.0 { if idx > 0 { write CursorUp(1) }; write CursorLeft;
write EraseEndLine }`, with the sink threaded through the iterations. -/
def EraseLines.fmtTo (c : EraseLines) (buf : String) : String :=
  (List.range c.n).foldl
    (fun b idx =>
      ((if idx > 0 then b ++ CursorUp.fmt ⟨1⟩ else b) ++ CursorLeft) ++ EraseEndLine)
    buf

/-- Rendering into an empty sink. -/
def EraseLines.fmt (c : EraseLines) : String := c.fmtTo ""

/-! ### The whole catalog, for claims quantifying over every code value -/

/-- The crate's twenty fixed (parameterless) marker structs, as one
enumeration. -/
inductive FixedCode : Type
  | cursorLeft | cursorSavePosition | cursorRestorePosition | cursorGetPosition
  | cursorNextLine | cursorPrevLine | cursorHide | cursorShow
  | eraseEndLine | eraseStartLine | eraseLine
  | eraseDown | eraseUp | eraseScreen | scrollUp | scrollDown
  | clearScreen | enterAlternativeScreen | exitAlternativeScreen | beep

/-- The constant string a fixed code's `Display` writes. -/
def FixedCode.constant : FixedCode → String
  | .cursorLeft => CursorLeft
  | .cursorSavePosition => CursorSavePosition
  | .cursorRestorePosition => CursorRestorePosition
  | .cursorGetPosition => CursorGetPosition
  | .cursorNextLine => CursorNextLine
  | .cursorPrevLine => CursorPrevLine
  | .cursorHide => CursorHide
  | .cursorShow => CursorShow
  | .eraseEndLine => EraseEndLine
  | .eraseStartLine => EraseStartLine
  | .eraseLine => EraseLine
  | .eraseDown => EraseDown
  | .eraseUp => EraseUp
  | .eraseScreen => EraseScreen
  | .scrollUp => ScrollUp
  | .scrollDown => ScrollDown
  | .clearScreen => ClearScreen
  | .enterAlternativeScreen => EnterAlternativeScreen
  | .exitAlternativeScreen => ExitAlternativeScreen
  | .beep => Beep

/-- One value of any code type the crate exports, so that properties of
rendering can be stated uniformly over the whole catalog. -/
inductive AnyCode : Type
  | cursorTo (c : CursorTo)
  | cursorMove (c : CursorMove)
  | cursorUp (c : CursorUp)
  | cursorDown (c : CursorDown)
  | cursorForward (c : CursorForward)
  | cursorBackward (c : CursorBackward)
  | eraseLines (c : EraseLines)
  | fixed (c : FixedCode)

/-- Writing any code value to a sink: dispatches to the code's own `Display`
implementation (a fixed code appends its constant). -/
def AnyCode.fmtTo : AnyCode → String → String
  | .cursorTo c, buf => c.fmtTo buf
  | .cursorMove c, buf => c.fmtTo buf
  | .cursorUp c, buf => c.fmtTo buf
  | .cursorDown c, buf => c.fmtTo buf
  | .cursorForward c, buf => c.fmtTo buf
  | .cursorBackward c, buf => c.fmtTo buf
  | .eraseLines c, buf => c.fmtTo buf
  | .fixed c, buf => buf ++ c.constant

/-- Rendering any code value into an empty sink. -/
def AnyCode.render (c : AnyCode) : String := c.fmtTo ""

/-! ### Decimal spelling: what it means for a string to be the plain decimal
form of a number -/

/-- Numeric value of a digit character (`'0' ↦ 0`, …, `'9' ↦ 9`). -/
def charVal (c : Char) : Nat := c.toNat - 48

/-- The property of being the plain decimal spelling of `n`: nonempty, only
digit characters (hence no sign and no padding), no leading zero unless
`n = 0`, and the digit string reads back as `n` itself. -/
def decSpells (n : Nat) (s : String) : Prop :=
  s.data ≠ [] ∧ (∀ c ∈ s.data, '0' ≤ c ∧ c ≤ '9') ∧
    (n ≠ 0 → s.data.head? ≠ some '0') ∧
    Nat.ofDigits 10 ((s.data.map charVal).reverse) = n

/-- Characters of `n` in decimal, most significant first; `0` is `['0']`.
Reference form of `uDec`'s output in terms of `Nat.digits`. -/
def decChars (n : Nat) : List Char :=
  if n = 0 then ['0'] else (Nat.digits 10 n).reverse.map digitChar

lemma decChars_step {n : Nat} (h : 10 ≤ n) :
    decChars n = decChars (n / 10) ++ [digitChar (n % 10)] := by
  have hn : n ≠ 0 := by omega
  have hq : n / 10 ≠ 0 := by
    have := Nat.div_pos h (by norm_num)
    omega
  simp only [decChars, if_neg hn, if_neg hq]
  rw [Nat.digits_def' (by norm_num : (1 : ℕ) < 10) (Nat.pos_of_ne_zero hn)]
  simp

lemma uDecCore_eq (fuel : Nat) :
    ∀ n acc, n < fuel → uDecCore fuel n acc = decChars n ++ acc := by
  induction fuel with
  | zero => intro n acc h; omega
  | succ fuel ih =>
    intro n acc h
    by_cases h10 : n < 10
    · rw [uDecCore, if_pos h10]
      by_cases h0 : n = 0
      · subst h0
        simp only [decChars, if_pos rfl]
        rfl
      · simp only [decChars, if_neg h0]
        rw [Nat.digits_def' (by norm_num : (1 : ℕ) < 10) (Nat.pos_of_ne_zero h0),
          Nat.mod_eq_of_lt h10, Nat.div_eq_of_lt h10]
        simp
    · rw [uDecCore, if_neg h10]
      have hlt : n / 10 < fuel := by
        have h2 : n / 10 < n := Nat.div_lt_self (by omega) (by norm_num)
        omega
      rw [ih (n / 10) _ hlt, decChars_step (show 10 ≤ n by omega)]
      simp

lemma uDec_data (n : Nat) : (uDec n).data = decChars n := by
  show (⟨uDecCore (n + 1) n []⟩ : String).data = _
  rw [uDecCore_eq (n + 1) n [] (by omega)]
  simp

lemma digitChar_bounds : ∀ d, d < 10 → '0' ≤ digitChar d ∧ digitChar d ≤ '9' := by
  decide

lemma digitChar_ne_zeroChar : ∀ d, d < 10 → d ≠ 0 → digitChar d ≠ '0' := by
  decide

lemma charVal_digitChar : ∀ d, d < 10 → charVal (digitChar d) = d := by
  decide

/-- The decimal printer really spells `n` in plain decimal. -/
theorem uDec_spells (n : Nat) : decSpells n (uDec n) := by
  rw [decSpells, uDec_data]
  by_cases h0 : n = 0
  · subst h0
    refine ⟨by simp [decChars], ?_, by simp, ?_⟩
    · intro c hc
      simp [decChars] at hc
      subst hc
      decide
    · simp [decChars, charVal, Nat.ofDigits]
  · have hne : Nat.digits 10 n ≠ [] := Nat.digits_ne_nil_iff_ne_zero.mpr h0
    have hlt : ∀ d ∈ Nat.digits 10 n, d < 10 := fun d hd =>
      Nat.digits_lt_base (by norm_num) hd
    simp only [decChars, if_neg h0]
    refine ⟨by simp [hne], ?_, ?_, ?_⟩
    · intro c hc
      simp only [List.mem_map, List.mem_reverse] at hc
      obtain ⟨d, hd, rfl⟩ := hc
      exact digitChar_bounds d (hlt d hd)
    · intro _
      rw [List.head?_map, List.head?_reverse,
        List.getLast?_eq_getLast _ hne]
      have hgl : (Nat.digits 10 n).getLast hne ∈ Nat.digits 10 n :=
        List.getLast_mem hne
      have := Nat.getLast_digit_ne_zero 10 h0
      intro hcontra
      have h2 : digitChar ((Nat.digits 10 n).getLast hne) = '0' := by
        simpa using hcontra
      exact digitChar_ne_zeroChar _ (hlt _ hgl) this h2
    · rw [List.map_map]
      have : (Nat.digits 10 n).reverse.map (charVal ∘ digitChar) =
          (Nat.digits 10 n).reverse := by
        apply List.map_congr_left ?_ |>.trans (List.map_id _)
        intro d hd
        exact charVal_digitChar d (hlt d (List.mem_reverse.mp hd))
      rw [this, List.reverse_reverse, Nat.ofDigits_digits]

/-! ### Unfolding lemmas for the `EraseLines` loop and `String.intercalate` -/

lemma eraseLines_fmtTo_zero (buf : String) : EraseLines.fmtTo ⟨0⟩ buf = buf := rfl

lemma eraseLines_fmtTo_succ (n : Nat) (buf : String) :
    EraseLines.fmtTo ⟨n + 1⟩ buf =
      ((if n > 0 then EraseLines.fmtTo ⟨n⟩ buf ++ CursorUp.fmt ⟨1⟩
        else EraseLines.fmtTo ⟨n⟩ buf) ++ CursorLeft) ++ EraseEndLine := by
  show (List.range (n + 1)).foldl _ buf = _
  rw [List.range_succ, List.foldl_append]
  rfl

lemma eraseLines_fmtTo_append (n : Nat) (buf : String) :
    EraseLines.fmtTo ⟨n⟩ buf = buf ++ EraseLines.fmtTo ⟨n⟩ "" := by
  induction n with
  | zero => simp [eraseLines_fmtTo_zero]
  | succ n ih =>
    rw [eraseLines_fmtTo_succ n buf, eraseLines_fmtTo_succ n ""]
    by_cases hn : n > 0 <;>
      simp [hn, ih, String.append_assoc]

lemma intercalate_go_snoc (sep a : String) :
    ∀ (as : List String) (acc : String),
      String.intercalate.go acc sep (as ++ [a]) =
        String.intercalate.go acc sep as ++ sep ++ a := by
  intro as
  induction as with
  | nil => intro acc; rfl
  | cons x xs ih => intro acc; exact ih (acc ++ sep ++ x)

lemma intercalate_replicate_zero (sep b : String) :
    String.intercalate sep (List.replicate 0 b) = "" := rfl

lemma intercalate_replicate_one (sep b : String) :
    String.intercalate sep (List.replicate 1 b) = b := rfl

lemma intercalate_replicate_succ (sep b : String) (n : Nat) :
    String.intercalate sep (List.replicate (n + 2) b) =
      String.intercalate sep (List.replicate (n + 1) b) ++ sep ++ b := by
  have h1 : List.replicate (n + 2) b = b :: (List.replicate n b ++ [b]) := by
    rw [List.replicate_succ, List.replicate_succ']
  have h2 : List.replicate (n + 1) b = b :: List.replicate n b :=
    List.replicate_succ b n
  rw [h1, h2]
  show String.intercalate.go b sep (List.replicate n b ++ [b]) = _
  rw [intercalate_go_snoc]
  rfl

/-! ### Small facts about `wrap16`, `iDec` and the checked renderers -/

lemma wrap16_eq_self {z : Int} (h1 : -32768 ≤ z) (h2 : z ≤ 32767) : wrap16 z = z := by
  unfold wrap16
  omega

lemma iDec_nonneg {i : Int} (h : 0 ≤ i) : iDec i = uDec i.toNat := by
  rw [iDec, if_neg (by omega)]

lemma fmtX_pos {d : Int} (h : 0 < d) : fmtX d = "\x1B[" ++ uDec d.toNat ++ "C" := by
  rw [fmtX, if_pos h, iDec_nonneg (le_of_lt h)]

lemma fmtX_neg {d : Int} (h : d < 0) (hlo : -32768 < d) :
    fmtX d = "\x1B[" ++ uDec (-d).toNat ++ "D" := by
  rw [fmtX, if_neg (by omega), if_pos h, wrap16_eq_self (by omega) (by omega),
    iDec_nonneg (by omega)]

lemma fmtY_pos {d : Int} (h : 0 < d) : fmtY d = "\x1B[" ++ uDec d.toNat ++ "B" := by
  rw [fmtY, if_pos h, iDec_nonneg (le_of_lt h)]

lemma fmtY_neg {d : Int} (h : d < 0) (hlo : -32768 < d) :
    fmtY d = "\x1B[" ++ uDec (-d).toNat ++ "A" := by
  rw [fmtY, if_neg (by omega), if_pos h, wrap16_eq_self (by omega) (by omega),
    iDec_nonneg (by omega)]

lemma fmtXChecked_eq {d : Int} (hlo : -32768 < d) : fmtXChecked d = some (fmtX d) := by
  rcases lt_trichotomy 0 d with h | h | h
  · rw [fmtXChecked, if_pos h, fmtX, if_pos h]
  · rw [← h]
    decide
  · have hne : d ≠ -32768 := by omega
    rw [fmtXChecked, if_neg (by omega), if_pos h, fmtX, if_neg (by omega), if_pos h,
      wrap16_eq_self (by omega) (by omega)]
    simp [negChecked, hne]

lemma fmtYChecked_eq {d : Int} (hlo : -32768 < d) : fmtYChecked d = some (fmtY d) := by
  rcases lt_trichotomy 0 d with h | h | h
  · rw [fmtYChecked, if_pos h, fmtY, if_pos h]
  · rw [← h]
    decide
  · have hne : d ≠ -32768 := by omega
    rw [fmtYChecked, if_neg (by omega), if_pos h, fmtY, if_neg (by omega), if_pos h,
      wrap16_eq_self (by omega) (by omega)]
    simp [negChecked, hne]

/-! ## The claims -/

/-- Spec-side description of `EraseLines(N)`'s output, written from the
spec's words rather than the source: `N` copies of the block
`ESC[1000D ESC[K`, with exactly one `ESC[1A` between consecutive blocks and
none before the first or after the last (`String.intercalate` is precisely
that shape; `N = 0` gives the empty string). -/
def eraseLinesSpec (n : Nat) : String :=
  String.intercalate "\x1B[1A" (List.replicate n "\x1B[1000D\x1B[K")

/-- C1 (amended): away from the overflow boundary — `x, y ≤ 65534` for the
absolute forms and `-32768 < d` for the relative forms — rendering succeeds
with no internal failure, and the debug-checked semantics agrees with the
release rendering.  At `x = 65535` or `d = -32768` the source's `x + 1` /
`-x` overflows its 16-bit type (see the counterexample theorem). -/
theorem render_succeeds_off_boundary (x y : Nat) (d : Int)
    (hx : x < 65535) (hy : y < 65535) (hlo : -32768 < d) (hhi : d ≤ 32767) :
    CursorTo.fmtChecked (.AbsoluteX x) = some (CursorTo.fmt (.AbsoluteX x)) ∧
    CursorTo.fmtChecked (.AbsoluteXY x y) = some (CursorTo.fmt (.AbsoluteXY x y)) ∧
    CursorMove.fmtChecked (.X d) = some (CursorMove.fmt (.X d)) ∧
    CursorMove.fmtChecked (.Y d) = some (CursorMove.fmt (.Y d)) ∧
    CursorMove.fmtChecked (.XY d d) = some (CursorMove.fmt (.XY d d)) := by
  have hx1 : x + 1 < 65536 := by omega
  have hy1 : y + 1 < 65536 := by omega
  refine ⟨?_, ?_, ?_, ?_, ?_⟩
  · show (do
        let x1 ← succChecked x
        pure ("\x1B[" ++ uDec x1 ++ "G")) = some ("" ++ ("\x1B[" ++ uDec ((x + 1) % 65536) ++ "G"))
    rw [succChecked, if_pos hx1, Nat.mod_eq_of_lt hx1]
    rfl
  · show (do
        let x1 ← succChecked x
        let y1 ← succChecked y
        pure ("\x1B[" ++ uDec y1 ++ ";" ++ uDec x1 ++ "H")) =
      some ("" ++ ("\x1B[" ++ uDec ((y + 1) % 65536) ++ ";" ++ uDec ((x + 1) % 65536) ++ "H"))
    rw [succChecked, if_pos hx1, succChecked, if_pos hy1,
      Nat.mod_eq_of_lt hx1, Nat.mod_eq_of_lt hy1]
    rfl
  · show fmtXChecked d = some ("" ++ fmtX d)
    rw [fmtXChecked_eq hlo, String.empty_append]
  · show fmtYChecked d = some ("" ++ fmtY d)
    rw [fmtYChecked_eq hlo, String.empty_append]
  · show (do
        let sx ← fmtXChecked d
        let sy ← fmtYChecked d
        pure (sx ++ sy)) = some (("" ++ fmtX d) ++ fmtY d)
    rw [fmtXChecked_eq hlo, fmtYChecked_eq hlo, String.empty_append]
    rfl

/-- Witness for C1's amended theorem at `x = 4`, `y = 2`, `d = -5`. -/
theorem render_succeeds_off_boundary_witness :
    4 < 65535 ∧ 2 < 65535 ∧ (-32768 : Int) < -5 ∧ (-5 : Int) ≤ 32767 ∧
      (CursorTo.fmtChecked (.AbsoluteX 4) = some (CursorTo.fmt (.AbsoluteX 4)) ∧
        CursorTo.fmtChecked (.AbsoluteXY 4 2) = some (CursorTo.fmt (.AbsoluteXY 4 2)) ∧
        CursorMove.fmtChecked (.X (-5)) = some (CursorMove.fmt (.X (-5))) ∧
        CursorMove.fmtChecked (.Y (-5)) = some (CursorMove.fmt (.Y (-5))) ∧
        CursorMove.fmtChecked (.XY (-5) (-5)) = some (CursorMove.fmt (.XY (-5) (-5)))) :=
  ⟨by decide, by decide, by decide, by decide,
    render_succeeds_off_boundary 4 2 (-5) (by decide) (by decide) (by decide) (by decide)⟩

/-- C1 fails as stated: at `x = 65535` the `u16` increment in
`CursorTo::AbsoluteX` overflows, and at `d = -32768` the `i16` negation in
`CursorMove::Y` overflows — debug builds panic (modelled as `none`) instead of
rendering successfully. -/
theorem render_succeeds_cex :
    CursorTo.fmtChecked (.AbsoluteX 65535) = none ∧
    CursorMove.fmtChecked (.Y (-32768)) = none := by decide

/-- C2: `EraseLines.fmt` produces exactly `n` blocks `ESC[1000D ESC[K` with a
single `ESC[1A` between consecutive blocks (helper, no range restriction). -/
lemma eraseLines_fmt_eq (n : Nat) : EraseLines.fmt ⟨n⟩ = eraseLinesSpec n := by
  induction n with
  | zero => rfl
  | succ m ih =>
    rw [EraseLines.fmt, eraseLines_fmtTo_succ]
    cases m with
    | zero => decide
    | succ k =>
      rw [if_pos (Nat.succ_pos k),
        show EraseLines.fmtTo ⟨k + 1⟩ "" = EraseLines.fmt ⟨k + 1⟩ from rfl, ih,
        eraseLinesSpec, eraseLinesSpec, intercalate_replicate_succ,
        show CursorUp.fmt ⟨1⟩ = "\x1B[1A" by decide,
        String.append_assoc _ CursorLeft EraseEndLine,
        show CursorLeft ++ EraseEndLine = "\x1B[1000D\x1B[K" by decide]

/-- C2: for every unsigned 16-bit `N`, `EraseLines(N)` renders exactly `N`
blocks `ESC[1000D ESC[K` joined by exactly one `ESC[1A` between consecutive
blocks — none before the first or after the last — and `EraseLines(0)` renders
the empty string. -/
theorem eraseLines_block_structure (n : Nat) (h : n < 65536) :
    EraseLines.fmt ⟨n⟩ = eraseLinesSpec n ∧ EraseLines.fmt ⟨0⟩ = "" :=
  ⟨eraseLines_fmt_eq n, rfl⟩

/-- Witness for C2 at `N = 2`, checking the spec's literal example. -/
theorem eraseLines_block_structure_witness :
    2 < 65536 ∧ (EraseLines.fmt ⟨2⟩ = eraseLinesSpec 2 ∧ EraseLines.fmt ⟨0⟩ = "") ∧
      eraseLinesSpec 2 = "\x1B[1000D\x1B[K\x1B[1A\x1B[1000D\x1B[K" :=
  ⟨by decide, eraseLines_block_structure 2 (by decide), by decide⟩

/-- C3: for every unsigned 16-bit `n` (including `0`), the four directional
movers render `ESC[{n}A` / `ESC[{n}B` / `ESC[{n}C` / `ESC[{n}D`, with `n` as
its plain decimal digits — nonempty, digits only (no sign, no padding), no
leading zeros, reading back as `n`; `n = 0` yields a literal `"0"` parameter,
not an empty output. -/
theorem directional_movers_render (n : Nat) (h : n < 65536) :
    CursorUp.fmt ⟨n⟩ = "\x1B[" ++ uDec n ++ "A" ∧
    CursorDown.fmt ⟨n⟩ = "\x1B[" ++ uDec n ++ "B" ∧
    CursorForward.fmt ⟨n⟩ = "\x1B[" ++ uDec n ++ "C" ∧
    CursorBackward.fmt ⟨n⟩ = "\x1B[" ++ uDec n ++ "D" ∧
    decSpells n (uDec n) :=
  ⟨rfl, rfl, rfl, rfl, uDec_spells n⟩

/-- Witness for C3 at `n = 23`. -/
theorem directional_movers_render_witness :
    23 < 65536 ∧
      (CursorUp.fmt ⟨23⟩ = "\x1B[" ++ uDec 23 ++ "A" ∧
        CursorDown.fmt ⟨23⟩ = "\x1B[" ++ uDec 23 ++ "B" ∧
        CursorForward.fmt ⟨23⟩ = "\x1B[" ++ uDec 23 ++ "C" ∧
        CursorBackward.fmt ⟨23⟩ = "\x1B[" ++ uDec 23 ++ "D" ∧
        decSpells 23 (uDec 23)) ∧
      uDec 23 = "23" :=
  ⟨by decide, directional_movers_render 23 (by decide), by decide⟩

/-- C4 (amended): for every signed 16-bit delta `d` other than `-32768`,
`CursorMove::X(d)` renders `ESC[{d}C` when `d > 0`, `ESC[{-d}D` when `d < 0`
and nothing when `d = 0`, and analogously for `Y` with `B`/`A`.  At
`d = -32768` the source's negation overflows the `i16` (see the
counterexample theorem). -/
theorem cursorMove_axis_renders (d : Int) (hlo : -32768 < d) (hhi : d ≤ 32767) :
    (0 < d → CursorMove.fmt (.X d) = "\x1B[" ++ uDec d.toNat ++ "C") ∧
    (d < 0 → CursorMove.fmt (.X d) = "\x1B[" ++ uDec (-d).toNat ++ "D") ∧
    (d = 0 → CursorMove.fmt (.X d) = "") ∧
    (0 < d → CursorMove.fmt (.Y d) = "\x1B[" ++ uDec d.toNat ++ "B") ∧
    (d < 0 → CursorMove.fmt (.Y d) = "\x1B[" ++ uDec (-d).toNat ++ "A") ∧
    (d = 0 → CursorMove.fmt (.Y d) = "") := by
  refine ⟨fun h => ?_, fun h => ?_, fun h => ?_, fun h => ?_, fun h => ?_, fun h => ?_⟩
  · show "" ++ fmtX d = _
    rw [String.empty_append, fmtX_pos h]
  · show "" ++ fmtX d = _
    rw [String.empty_append, fmtX_neg h hlo]
  · subst h
    decide
  · show "" ++ fmtY d = _
    rw [String.empty_append, fmtY_pos h]
  · show "" ++ fmtY d = _
    rw [String.empty_append, fmtY_neg h hlo]
  · subst h
    decide

/-- Witness for C4's amended theorem at `d = -5`. -/
theorem cursorMove_axis_renders_witness :
    (-32768 : Int) < -5 ∧ (-5 : Int) ≤ 32767 ∧
      ((0 < (-5 : Int) → CursorMove.fmt (.X (-5)) = "\x1B[" ++ uDec (-5 : Int).toNat ++ "C") ∧
        ((-5 : Int) < 0 → CursorMove.fmt (.X (-5)) = "\x1B[" ++ uDec (-(-5 : Int)).toNat ++ "D") ∧
        ((-5 : Int) = 0 → CursorMove.fmt (.X (-5)) = "") ∧
        (0 < (-5 : Int) → CursorMove.fmt (.Y (-5)) = "\x1B[" ++ uDec (-5 : Int).toNat ++ "B") ∧
        ((-5 : Int) < 0 → CursorMove.fmt (.Y (-5)) = "\x1B[" ++ uDec (-(-5 : Int)).toNat ++ "A") ∧
        ((-5 : Int) = 0 → CursorMove.fmt (.Y (-5)) = "")) :=
  ⟨by decide, by decide, cursorMove_axis_renders (-5) (by decide) (by decide)⟩

/-- C4 fails as stated at `d = -32768`: the claim demands `ESC[32768D`, but
the source negates the `i16` delta, which overflows — release builds wrap and
render `ESC[-32768D`, debug builds panic (`none` in the checked model). -/
theorem cursorMove_axis_renders_cex :
    CursorMove.fmt (.X (-32768)) ≠ "\x1B[32768D" ∧
    CursorMove.fmt (.X (-32768)) = "\x1B[-32768D" ∧
    CursorMove.fmtChecked (.X (-32768)) = none := by decide

/-- C5 (amended): for every `x, y ≤ 65534`, `CursorTo::AbsoluteX(x)` renders
`ESC[{x+1}G` and `CursorTo::AbsoluteXY(x, y)` renders `ESC[{y+1};{x+1}H` —
zero-based inputs become 1-based by adding one, with the row parameter first.
At `x = 65535` or `y = 65535` the `u16` increment overflows (see the
counterexample theorem). -/
theorem cursorTo_absolute_renders (x y : Nat) (hx : x < 65535) (hy : y < 65535) :
    CursorTo.fmt (.AbsoluteX x) = "\x1B[" ++ uDec (x + 1) ++ "G" ∧
    CursorTo.fmt (.AbsoluteXY x y) =
      "\x1B[" ++ uDec (y + 1) ++ ";" ++ uDec (x + 1) ++ "H" := by
  have hx1 : (x + 1) % 65536 = x + 1 := Nat.mod_eq_of_lt (by omega)
  have hy1 : (y + 1) % 65536 = y + 1 := Nat.mod_eq_of_lt (by omega)
  constructor
  · show "" ++ ("\x1B[" ++ uDec ((x + 1) % 65536) ++ "G") = _
    rw [hx1, String.empty_append]
  · show "" ++ ("\x1B[" ++ uDec ((y + 1) % 65536) ++ ";" ++ uDec ((x + 1) % 65536) ++ "H") = _
    rw [hx1, hy1, String.empty_append]

/-- Witness for C5's amended theorem at `x = 4`, `y = 2` (the spec's example:
`ESC[3;5H`). -/
theorem cursorTo_absolute_renders_witness :
    4 < 65535 ∧ 2 < 65535 ∧
      (CursorTo.fmt (.AbsoluteX 4) = "\x1B[" ++ uDec (4 + 1) ++ "G" ∧
        CursorTo.fmt (.AbsoluteXY 4 2) =
          "\x1B[" ++ uDec (2 + 1) ++ ";" ++ uDec (4 + 1) ++ "H") ∧
      CursorTo.fmt (.AbsoluteXY 4 2) = "\x1B[3;5H" :=
  ⟨by decide, by decide, cursorTo_absolute_renders 4 2 (by decide) (by decide), by decide⟩

/-- C5 fails as stated at `x = 65535`: the claim demands `ESC[65536G`, but
`x + 1` overflows the `u16` — release builds wrap and render `ESC[0G`, debug
builds panic (`none` in the checked model). -/
theorem cursorTo_absolute_renders_cex :
    CursorTo.fmt (.AbsoluteX 65535) ≠ "\x1B[65536G" ∧
    CursorTo.fmt (.AbsoluteX 65535) = "\x1B[0G" ∧
    CursorTo.fmtChecked (.AbsoluteX 65535) = none := by decide

/-- C6: for every pair of signed 16-bit deltas, rendering `CursorMove::XY(x, y)`
into any sink appends exactly the output of `X(x)` immediately followed by the
output of `Y(y)`, in that order, with no separator. -/
theorem cursorMove_xy_concatenates (x y : Int) (buf : String)
    (hx1 : -32768 ≤ x) (hx2 : x ≤ 32767) (hy1 : -32768 ≤ y) (hy2 : y ≤ 32767) :
    CursorMove.fmtTo (.XY x y) buf =
      buf ++ (CursorMove.fmt (.X x) ++ CursorMove.fmt (.Y y)) := by
  show (buf ++ fmtX x) ++ fmtY y = buf ++ (("" ++ fmtX x) ++ ("" ++ fmtY y))
  rw [String.empty_append, String.empty_append, String.append_assoc]

/-- Witness for C6 at `(x, y) = (3, -2)` with an empty sink; the result is the
spec's example `ESC[3C ESC[2A`. -/
theorem cursorMove_xy_concatenates_witness :
    (-32768 : Int) ≤ 3 ∧ (3 : Int) ≤ 32767 ∧ (-32768 : Int) ≤ -2 ∧ (-2 : Int) ≤ 32767 ∧
      CursorMove.fmtTo (.XY 3 (-2)) "" =
        "" ++ (CursorMove.fmt (.X 3) ++ CursorMove.fmt (.Y (-2))) ∧
      CursorMove.fmtTo (.XY 3 (-2)) "" = "\x1B[3C\x1B[2A" :=
  ⟨by decide, by decide, by decide, by decide,
    cursorMove_xy_concatenates 3 (-2) "" (by decide) (by decide) (by decide) (by decide),
    by decide⟩

/-- C7: every fixed code appends its table-defined constant to the sink on
every call, and the constants named by the claim are byte-for-byte the spec's
table entries — in particular `ClearScreen` is the two bytes `0x1B` `'c'` and
`Beep` is the single byte `0x07`. -/
theorem fixed_codes_render (buf : String) :
    (∀ c : FixedCode, AnyCode.fmtTo (.fixed c) buf = buf ++ c.constant) ∧
    CursorLeft.data = ['\x1B', '[', '1', '0', '0', '0', 'D'] ∧
    CursorHide.data = ['\x1B', '[', '?', '2', '5', 'l'] ∧
    CursorShow.data = ['\x1B', '[', '?', '2', '5', 'h'] ∧
    EraseEndLine.data = ['\x1B', '[', 'K'] ∧
    EraseScreen.data = ['\x1B', '[', '2', 'J'] ∧
    ClearScreen.data = [Char.ofNat 0x1B, 'c'] ∧
    EnterAlternativeScreen.data = ['\x1B', '[', '?', '1', '0', '4', '9', 'h'] ∧
    ExitAlternativeScreen.data = ['\x1B', '[', '?', '1', '0', '4', '9', 'l'] ∧
    Beep.data = [Char.ofNat 0x07] :=
  ⟨fun c => by cases c <;> rfl, by decide, by decide, by decide, by decide, by decide,
    by decide, by decide, by decide, by decide⟩

/-- C8: `CursorTo::TopLeft` always renders exactly `ESC[1;1H`, whatever the
sink already contains. -/
theorem cursorTo_topLeft_renders (buf : String) :
    CursorTo.fmtTo .TopLeft buf = buf ++ "\x1B[1;1H" ∧
    CursorTo.fmt .TopLeft = "\x1B[1;1H" := by
  constructor
  · show buf ++ ("\x1B[" ++ uDec 1 ++ ";" ++ uDec 1 ++ "H") = buf ++ "\x1B[1;1H"
    rw [show ("\x1B[" ++ uDec 1 ++ ";" ++ uDec 1 ++ "H") = "\x1B[1;1H" by decide]
  · decide

/-- C9: rendering is deterministic and side-effect-free — writing any code
value of any kind into any sink appends exactly `render c`, a string that
depends only on the value itself, so repeated renders are byte-identical and
the only state change is the append. -/
theorem render_appends_deterministically (c : AnyCode) (buf : String) :
    AnyCode.fmtTo c buf = buf ++ AnyCode.render c := by
  cases c with
  | cursorTo c => cases c <;> rfl
  | cursorMove c =>
    cases c with
    | X x => rfl
    | XY x y =>
      show (buf ++ fmtX x) ++ fmtY y = buf ++ (("" ++ fmtX x) ++ fmtY y)
      rw [String.empty_append, String.append_assoc]
    | Y y => rfl
  | cursorUp c => rfl
  | cursorDown c => rfl
  | cursorForward c => rfl
  | cursorBackward c => rfl
  | eraseLines c =>
    obtain ⟨n⟩ := c
    exact eraseLines_fmtTo_append n buf
  | fixed c => rfl

/-- C10: zeroing one axis of `CursorMove::XY` reduces it to the other axis's
single-axis form, and `XY(0, 0)` renders nothing. -/
theorem cursorMove_xy_zero_axis (x : Int) (h1 : -32768 ≤ x) (h2 : x ≤ 32767) :
    CursorMove.fmt (.XY x 0) = CursorMove.fmt (.X x) ∧
    CursorMove.fmt (.XY 0 x) = CursorMove.fmt (.Y x) ∧
    CursorMove.fmt (.XY 0 0) = "" := by
  refine ⟨?_, ?_, by decide⟩
  · show ("" ++ fmtX x) ++ fmtY 0 = "" ++ fmtX x
    rw [show fmtY 0 = "" by decide, String.append_empty]
  · show ("" ++ fmtX 0) ++ fmtY x = "" ++ fmtY x
    rw [show fmtX 0 = "" by decide]
    rfl

/-- Witness for C10 at `x = 7`. -/
theorem cursorMove_xy_zero_axis_witness :
    (-32768 : Int) ≤ 7 ∧ (7 : Int) ≤ 32767 ∧
      (CursorMove.fmt (.XY 7 0) = CursorMove.fmt (.X 7) ∧
        CursorMove.fmt (.XY 0 7) = CursorMove.fmt (.Y 7) ∧
        CursorMove.fmt (.XY 0 0) = "") :=
  ⟨by decide, by decide, cursorMove_xy_zero_axis 7 (by decide) (by decide)⟩

end AnsiEscapes
